import Mathlib

/-!
Verification of the `slice_view` library: a zero-copy view of a rectangular
sub-region of a row-major 2D buffer.  The Rust source is embedded shallowly:
the borrowed slice becomes a `List`, and the `Index` implementation becomes a
total function into `Except IndexError T`, where `IndexError.divByZero` models
the Rust panic on `idx / 0` and `IndexError.outOfBounds` models the panic of
native bounds-checked slice indexing.
-/

/-- Mirrors `ImageDimensions`: cols x rows. -/
structure ImageDimensions where
  columns : Nat
  rows : Nat
deriving DecidableEq

/-- Mirrors `ImageDimensions::new(width, height)`. -/
def ImageDimensions.new (width height : Nat) : ImageDimensions :=
  { columns := width, rows := height }

/-- Mirrors `ImageDimensions::default()`: zero-extent rectangle. -/
def ImageDimensions.deflt : ImageDimensions :=
  { columns := 0, rows := 0 }

/-- Mirrors `SliceView<'a, T>`; the borrowed slice is a `List T`. -/
structure SliceView (T : Type) where
  passthru : Bool
  parent_dims : ImageDimensions
  child_dims : ImageDimensions
  parent_start_col : Nat
  parent_start_row : Nat
  slice : List T

/-- Mirrors `SliceView::new`. -/
def SliceView.new (parent_dims : ImageDimensions) (parent_start_row parent_start_col : Nat)
    (slice : List T) (child_dims : ImageDimensions) : SliceView T :=
  { passthru := false
    parent_dims
    child_dims
    parent_start_col
    parent_start_row
    slice }

/-- Mirrors `SliceView::new_passthru`. -/
def SliceView.new_passthru (parent_dims : ImageDimensions) (slice : List T) : SliceView T :=
  { passthru := true
    parent_dims
    child_dims := parent_dims
    parent_start_col := 0
    parent_start_row := 0
    slice }

/-- Mirrors `SliceView::new_split`. -/
def SliceView.new_split (parent_dims : ImageDimensions) (parent_start_row parent_start_col : Nat)
    (slice : List T) (child_dims : ImageDimensions) : SliceView T × SliceView T :=
  let second_child_start_col := parent_start_col + child_dims.columns
  ( { passthru := false
      parent_dims
      child_dims
      parent_start_col
      parent_start_row
      slice }
  , { passthru := false
      parent_dims
      child_dims
      parent_start_col := second_child_start_col
      parent_start_row
      slice } )

/-- Failure modes of indexing: Rust panics on integer division by zero and on
an out-of-bounds slice access. -/
inductive IndexError where
  | divByZero
  | outOfBounds
deriving DecidableEq

/-- Mirrors `impl Index<usize> for SliceView`: translate a child-local linear
index to a parent-local linear index (unless passthrough) and read the slice. -/
def SliceView.index (v : SliceView T) (idx : Nat) : Except IndexError T :=
  if !v.passthru then
    if v.child_dims.columns = 0 then
      Except.error IndexError.divByZero
    else
      let child_y := idx / v.child_dims.columns
      let child_x := idx % v.child_dims.columns
      let frame_x := v.parent_start_col + child_x
      let frame_y := v.parent_start_row + child_y
      let frame_idx := frame_y * v.parent_dims.columns + frame_x
      match v.slice[frame_idx]? with
      | some t => Except.ok t
      | none => Except.error IndexError.outOfBounds
  else
    match v.slice[idx]? with
    | some t => Except.ok t
    | none => Except.error IndexError.outOfBounds

/-- Mirrors the test fixture `FRAME_64`: an 8x8 frame of `u8` samples. -/
def FRAME_64 : List Nat :=
  [ 10, 20, 30, 40, 50, 60, 70, 80,
    11, 21, 31, 41, 51, 61, 71, 81,
    12, 22, 32, 42, 52, 62, 72, 82,
    13, 23, 33, 43, 53, 63, 73, 83,
    14, 24, 34, 44, 54, 64, 74, 84,
    15, 25, 35, 45, 55, 65, 75, 85,
    16, 26, 36, 46, 56, 66, 76, 86,
    17, 27, 37, 47, 57, 67, 77, 87 ]

/-- Helper: in the non-passthrough branch, indexing returns the slice element
at the translated frame index when the lookup succeeds. -/
theorem SliceView.index_offset_ok {T : Type} (v : SliceView T) (idx : Nat)
    (hp : v.passthru = false) (hc : 0 < v.child_dims.columns) (t : T)
    (h : v.slice[(v.parent_start_row + idx / v.child_dims.columns) * v.parent_dims.columns +
        (v.parent_start_col + idx % v.child_dims.columns)]? = some t) :
    v.index idx = Except.ok t := by
  simp only [SliceView.index, hp, Bool.not_false, if_true]
  rw [if_neg hc.ne', h]

/-- Helper: in the non-passthrough branch, indexing fails with an
out-of-bounds error when the translated frame index reaches the slice
length. -/
theorem SliceView.index_offset_oob {T : Type} (v : SliceView T) (idx : Nat)
    (hp : v.passthru = false) (hc : 0 < v.child_dims.columns)
    (h : v.slice.length ≤
        (v.parent_start_row + idx / v.child_dims.columns) * v.parent_dims.columns +
          (v.parent_start_col + idx % v.child_dims.columns)) :
    v.index idx = Except.error IndexError.outOfBounds := by
  simp only [SliceView.index, hp, Bool.not_false, if_true]
  rw [if_neg hc.ne', List.getElem?_eq_none h]

/-- Helper: in the passthrough branch, indexing returns the slice element at
the untranslated index when the lookup succeeds. -/
theorem SliceView.index_passthru_ok {T : Type} (v : SliceView T) (idx : Nat) (t : T)
    (hp : v.passthru = true) (h : v.slice[idx]? = some t) :
    v.index idx = Except.ok t := by
  simp [SliceView.index, hp, h]

/-- Helper: in the passthrough branch, indexing fails with an out-of-bounds
error when the index reaches the slice length. -/
theorem SliceView.index_passthru_oob {T : Type} (v : SliceView T) (idx : Nat)
    (hp : v.passthru = true) (h : v.slice.length ≤ idx) :
    v.index idx = Except.error IndexError.outOfBounds := by
  simp [SliceView.index, hp, List.getElem?_eq_none h]

/-- Claim C1: for every non-passthrough view with positive child columns,
indexing at `idx` returns the backing-buffer element at frame index
`(parent_start_row + idx / child_cols) * parent_cols + (parent_start_col + idx % child_cols)`
whenever that frame index is within the backing slice. -/
theorem C1_index_translation {T : Type} (v : SliceView T) (idx : Nat)
    (hp : v.passthru = false) (hc : 0 < v.child_dims.columns) (t : T)
    (h : v.slice[(v.parent_start_row + idx / v.child_dims.columns) * v.parent_dims.columns +
        (v.parent_start_col + idx % v.child_dims.columns)]? = some t) :
    v.index idx = Except.ok t := by
  simp only [SliceView.index, hp, Bool.not_false, if_true]
  rw [if_neg hc.ne', h]

/-- Witness for C1 at the `basic_view` test scenario of the source. -/
theorem C1_index_translation_witness :
    (SliceView.new (ImageDimensions.new 8 8) 1 2 FRAME_64 (ImageDimensions.new 3 2)).index 0 =
      Except.ok 31 :=
  C1_index_translation _ 0 rfl (by decide) 31 rfl

/-- Claim C3: a passthrough view over the full buffer satisfies
`view[i] = buffer[i]` for every `i` in `[0, buffer.length)`. -/
theorem C3_passthru_full_buffer {T : Type} (parent_dims : ImageDimensions) (s : List T)
    (i : Nat) (h : i < s.length) :
    (SliceView.new_passthru parent_dims s).index i = Except.ok (s.get ⟨i, h⟩) := by
  simp [SliceView.index, SliceView.new_passthru, List.getElem?_eq_getElem h]

/-- Witness for C3 at the `passthru` test scenario of the source. -/
theorem C3_passthru_full_buffer_witness :
    (SliceView.new_passthru (ImageDimensions.new 8 8) FRAME_64).index 63 = Except.ok 87 :=
  (C3_passthru_full_buffer (ImageDimensions.new 8 8) FRAME_64 63 (by decide)).trans rfl

/-- Claim C5: `new_split` yields exactly the two non-passthrough offset views
sharing slice, parent dims and child dims, with the second origin shifted right
by `child_dims.columns`. -/
theorem C5_new_split_structure {T : Type} (parent_dims : ImageDimensions)
    (parent_start_row parent_start_col : Nat) (s : List T) (child_dims : ImageDimensions) :
    SliceView.new_split parent_dims parent_start_row parent_start_col s child_dims =
      (SliceView.new parent_dims parent_start_row parent_start_col s child_dims,
       SliceView.new parent_dims parent_start_row (parent_start_col + child_dims.columns) s
         child_dims) ∧
    (SliceView.new_split parent_dims parent_start_row parent_start_col s child_dims).1.passthru
      = false ∧
    (SliceView.new_split parent_dims parent_start_row parent_start_col s child_dims).2.passthru
      = false :=
  ⟨rfl, rfl, rfl⟩

/-- Claim C6 counterexample: in the overwrap scenario (child 3x3 at row 0, col 7
of an 8x8 parent over `FRAME_64`), `view[8]` is 23 but `buffer[23]` is 82, not
23: the translated frame index is 25, not 23. -/
theorem C6_counterexample :
    (SliceView.new (ImageDimensions.new 8 8) 0 7 FRAME_64 (ImageDimensions.new 3 3)).index 8 =
      Except.ok 23 ∧
    FRAME_64[23]? = some 82 ∧ ¬ FRAME_64[23]? = some 23 :=
  ⟨rfl, rfl, by decide⟩

/-- Claim C6 (amended): overwrap gives `view[0] = buffer[7] = 80` and
`view[8] = buffer[25] = 23`, wrapping into the next parent row by design. -/
theorem C6_overwrap_amended :
    (SliceView.new (ImageDimensions.new 8 8) 0 7 FRAME_64 (ImageDimensions.new 3 3)).index 0 =
      Except.ok 80 ∧ FRAME_64[7]? = some 80 ∧
    (SliceView.new (ImageDimensions.new 8 8) 0 7 FRAME_64 (ImageDimensions.new 3 3)).index 8 =
      Except.ok 23 ∧ FRAME_64[25]? = some 23 :=
  ⟨rfl, rfl, rfl, rfl⟩

/-- Claim C8: a non-passthrough view whose child has zero columns fails every
indexing operation with a division-by-zero error; no fallback value is
produced. -/
theorem C8_div_by_zero {T : Type} (v : SliceView T) (idx : Nat)
    (hp : v.passthru = false) (hc : v.child_dims.columns = 0) :
    v.index idx = Except.error IndexError.divByZero := by
  simp [SliceView.index, hp, hc]

/-- Witness for C8: a zero-column child over a 2x2 parent. -/
theorem C8_div_by_zero_witness :
    (SliceView.new (ImageDimensions.new 2 2) 0 0 [1, 2, 3, 4] (ImageDimensions.new 0 2)).index 3 =
      Except.error IndexError.divByZero :=
  C8_div_by_zero _ 3 rfl rfl

/-- Claim C10: passthrough indexing ignores `parent_dims` entirely: for any
dimensions (even inconsistent or zero-extent) the view reads `s[i]` for every
`i < s.length` and fails only when `i ≥ s.length`. -/
theorem C10_passthru_ignores_parent_dims {T : Type} (d : ImageDimensions) (s : List T)
    (i : Nat) :
    (∀ d2 : ImageDimensions,
      (SliceView.new_passthru d s).index i = (SliceView.new_passthru d2 s).index i) ∧
    (∀ h : i < s.length,
      (SliceView.new_passthru d s).index i = Except.ok (s.get ⟨i, h⟩)) ∧
    (s.length ≤ i →
      (SliceView.new_passthru d s).index i = Except.error IndexError.outOfBounds) := by
  refine ⟨fun d2 => rfl, fun h => ?_, fun h => ?_⟩
  · simp [SliceView.index, SliceView.new_passthru, List.getElem?_eq_getElem h]
  · simp [SliceView.index, SliceView.new_passthru, List.getElem?_eq_none h]

/-- Witness for C10 with a zero-extent `parent_dims` inconsistent with the
buffer. -/
theorem C10_passthru_ignores_parent_dims_witness :
    (SliceView.new_passthru (ImageDimensions.new 0 0) [7, 8, 9]).index 1 = Except.ok 8 ∧
    (SliceView.new_passthru (ImageDimensions.new 0 0) [7, 8, 9]).index 5 =
      Except.error IndexError.outOfBounds :=
  ⟨((C10_passthru_ignores_parent_dims (ImageDimensions.new 0 0) [7, 8, 9] 1).2.1
      (by decide)).trans rfl,
   (C10_passthru_ignores_parent_dims (ImageDimensions.new 0 0) [7, 8, 9] 5).2.2 (by decide)⟩

/-- Claim C2: under the caller-enforced invariants, every child index below
`child_cols * child_rows` translates to a frame index strictly below the slice
length, so indexing returns an element and the out-of-bounds branch is
unreachable. -/
theorem C2_invariants_give_in_bounds {T : Type} (parent_dims child_dims : ImageDimensions)
    (parent_start_row parent_start_col : Nat) (s : List T)
    (h1 : parent_start_col + child_dims.columns ≤ parent_dims.columns)
    (h2 : parent_start_row + child_dims.rows ≤ parent_dims.rows)
    (h3 : parent_dims.columns * parent_dims.rows ≤ s.length)
    (hc : 0 < child_dims.columns)
    (idx : Nat) (hidx : idx < child_dims.columns * child_dims.rows) :
    (parent_start_row + idx / child_dims.columns) * parent_dims.columns +
      (parent_start_col + idx % child_dims.columns) < s.length ∧
    ∃ t, (SliceView.new parent_dims parent_start_row parent_start_col s child_dims).index idx =
      Except.ok t := by
  have hy : idx / child_dims.columns < child_dims.rows := Nat.div_lt_of_lt_mul hidx
  have hx : idx % child_dims.columns < child_dims.columns := Nat.mod_lt _ hc
  have hfy : parent_start_row + idx / child_dims.columns + 1 ≤ parent_dims.rows := by omega
  have hfx : parent_start_col + idx % child_dims.columns < parent_dims.columns := by omega
  have hframe : (parent_start_row + idx / child_dims.columns) * parent_dims.columns +
      (parent_start_col + idx % child_dims.columns) < s.length := by
    have hstep : (parent_start_row + idx / child_dims.columns) * parent_dims.columns +
        (parent_start_col + idx % child_dims.columns) <
        (parent_start_row + idx / child_dims.columns + 1) * parent_dims.columns := by
      rw [Nat.succ_mul]
      omega
    have hrows : (parent_start_row + idx / child_dims.columns + 1) * parent_dims.columns ≤
        parent_dims.rows * parent_dims.columns :=
      Nat.mul_le_mul_right _ hfy
    calc (parent_start_row + idx / child_dims.columns) * parent_dims.columns +
          (parent_start_col + idx % child_dims.columns)
        < (parent_start_row + idx / child_dims.columns + 1) * parent_dims.columns := hstep
      _ ≤ parent_dims.rows * parent_dims.columns := hrows
      _ = parent_dims.columns * parent_dims.rows := Nat.mul_comm _ _
      _ ≤ s.length := h3
  exact ⟨hframe, _,
    SliceView.index_offset_ok _ idx rfl hc _ (List.getElem?_eq_getElem hframe)⟩

/-- Witness for C2 at the `basic_view` test scenario of the source, idx 5. -/
theorem C2_invariants_give_in_bounds_witness :
    (1 + 5 / 3) * 8 + (2 + 5 % 3) < FRAME_64.length ∧
    ∃ t, (SliceView.new (ImageDimensions.new 8 8) 1 2 FRAME_64 (ImageDimensions.new 3 2)).index 5 =
      Except.ok t :=
  C2_invariants_give_in_bounds (ImageDimensions.new 8 8) (ImageDimensions.new 3 2) 1 2 FRAME_64
    (by decide) (by decide) (by decide) (by decide) 5 (by decide)

/-- Claim C4: when `parent_dims.columns > 0`, the passthrough fast path agrees
with the general offset-view translation at origin (0,0) with child dims equal
to parent dims, at every index: both give the same result, defined or not. -/
theorem C4_passthru_equiv_offset {T : Type} (parent_dims : ImageDimensions) (s : List T)
    (hc : 0 < parent_dims.columns) (i : Nat) :
    (SliceView.new_passthru parent_dims s).index i =
      (SliceView.new parent_dims 0 0 s parent_dims).index i := by
  have key : (0 + i / parent_dims.columns) * parent_dims.columns +
      (0 + i % parent_dims.columns) = i := by
    rw [Nat.zero_add, Nat.zero_add, Nat.mul_comm, Nat.div_add_mod]
  by_cases h : i < s.length
  · rw [SliceView.index_passthru_ok _ i (s.get ⟨i, h⟩) rfl (List.getElem?_eq_getElem h),
      SliceView.index_offset_ok (SliceView.new parent_dims 0 0 s parent_dims) i rfl hc
        (s.get ⟨i, h⟩) (by simp only [SliceView.new]; rw [key]; exact List.getElem?_eq_getElem h)]
  · have hlen : s.length ≤ i := Nat.le_of_not_lt h
    rw [SliceView.index_passthru_oob _ i rfl hlen,
      SliceView.index_offset_oob (SliceView.new parent_dims 0 0 s parent_dims) i rfl hc
        (by simp only [SliceView.new]; rw [key]; exact hlen)]

/-- Witness for C4 at an 8x8 parent over `FRAME_64`, index 63. -/
theorem C4_passthru_equiv_offset_witness :
    (SliceView.new_passthru (ImageDimensions.new 8 8) FRAME_64).index 63 =
      (SliceView.new (ImageDimensions.new 8 8) 0 0 FRAME_64 (ImageDimensions.new 8 8)).index 63 :=
  C4_passthru_equiv_offset (ImageDimensions.new 8 8) FRAME_64 (by decide) 63

/-- Claim C7 counterexample: with child dimensions (0,1) at origin (0,0) over
the non-empty buffer [42], indexing at 0 fails with division by zero instead of
returning the first buffer element, so the claim fails for arbitrary child
dimensions. -/
theorem C7_counterexample :
    (SliceView.new (ImageDimensions.new 1 1) 0 0 [42] (ImageDimensions.new 0 1)).index 0 =
      Except.error IndexError.divByZero ∧
    ([42] : List Nat)[0]? = some 42 ∧
    ¬ (SliceView.new (ImageDimensions.new 1 1) 0 0 [42] (ImageDimensions.new 0 1)).index 0 =
      Except.ok 42 :=
  ⟨rfl, rfl, fun h => by
    rw [show (SliceView.new (ImageDimensions.new 1 1) 0 0 [42]
        (ImageDimensions.new 0 1)).index 0 = Except.error IndexError.divByZero from rfl] at h
    exact Except.noConfusion h⟩

/-- Claim C7 (amended): for any parent and child dimensions with
`child_dims.columns > 0`, a view at origin (0,0) over a non-empty buffer
satisfies `view[0] = buffer[0]`. -/
theorem C7_origin_identity {T : Type} (parent_dims child_dims : ImageDimensions) (s : List T)
    (hc : 0 < child_dims.columns) (t : T) (h : s[0]? = some t) :
    (SliceView.new parent_dims 0 0 s child_dims).index 0 = Except.ok t := by
  apply SliceView.index_offset_ok _ 0 rfl hc
  simpa [SliceView.new] using h

/-- Witness for C7 at `FRAME_64` with a 3x2 child at origin (0,0). -/
theorem C7_origin_identity_witness :
    (SliceView.new (ImageDimensions.new 8 8) 0 0 FRAME_64 (ImageDimensions.new 3 2)).index 0 =
      Except.ok 10 :=
  C7_origin_identity (ImageDimensions.new 8 8) (ImageDimensions.new 3 2) FRAME_64
    (by decide) 10 rfl

/-- Claim C9: indexing never validates `idx` against the child extent: for any
`idx` whatsoever (in particular `idx ≥ child_cols * child_rows`), a
non-passthrough view with positive child columns returns an element whenever
the translated frame index is below the slice length, and fails with an
out-of-bounds error exactly when the frame index reaches the slice length. -/
theorem C9_no_child_extent_check {T : Type} (v : SliceView T) (idx : Nat)
    (hp : v.passthru = false) (hc : 0 < v.child_dims.columns) :
    ((v.parent_start_row + idx / v.child_dims.columns) * v.parent_dims.columns +
        (v.parent_start_col + idx % v.child_dims.columns) < v.slice.length →
      ∃ t, v.index idx = Except.ok t) ∧
    (v.index idx = Except.error IndexError.outOfBounds ↔
      v.slice.length ≤
        (v.parent_start_row + idx / v.child_dims.columns) * v.parent_dims.columns +
          (v.parent_start_col + idx % v.child_dims.columns)) := by
  constructor
  · intro h
    exact ⟨_, SliceView.index_offset_ok v idx hp hc _ (List.getElem?_eq_getElem h)⟩
  · constructor
    · intro h
      by_contra hge
      have hlt := Nat.lt_of_not_le hge
      have hok := SliceView.index_offset_ok v idx hp hc _ (List.getElem?_eq_getElem hlt)
      rw [hok] at h
      exact Except.noConfusion h
    · exact SliceView.index_offset_oob v idx hp hc

/-- Witness for C9: index 6 is one past the 3x2 child extent yet still returns
an element of `FRAME_64`. -/
theorem C9_no_child_extent_check_witness :
    (∃ t, (SliceView.new (ImageDimensions.new 8 8) 1 2 FRAME_64
      (ImageDimensions.new 3 2)).index 6 = Except.ok t) ∧
    ¬ (SliceView.new (ImageDimensions.new 8 8) 1 2 FRAME_64
      (ImageDimensions.new 3 2)).index 6 = Except.error IndexError.outOfBounds :=
  ⟨(C9_no_child_extent_check (SliceView.new (ImageDimensions.new 8 8) 1 2 FRAME_64
      (ImageDimensions.new 3 2)) 6 rfl (by decide)).1 (by decide),
   fun h => absurd ((C9_no_child_extent_check (SliceView.new (ImageDimensions.new 8 8) 1 2
      FRAME_64 (ImageDimensions.new 3 2)) 6 rfl (by decide)).2.mp h) (by decide)⟩

